import Mathlib

/-!
Verification of the DXVK pipeline instance-cache core
(`src/dxvk/dxvk_compute.h`, `src/dxvk/dxvk_graphics.h`).

Shallow embedding notes.  The repository snapshot contains only the two
headers; inline member functions (`eq`, `hash`, `validate`,
`validateShaderType`, `isCompatible`) are embedded directly from their
source text.  Method bodies that live in the missing `.cpp` files
(`getPipelineHandle`, `compilePipeline`, `createInstance`, `findInstance`,
`createPipeline`, `validatePipelineState`, `writePipelineStateToCache`,
`getGlobalBarrier`) are modelled from the specification, with a doc
comment marking each such definition.

Reference-counted shader pointers (`Rc<DxvkShader>`) are modelled as
`Option Nat`: `none` is `nullptr`, `some i` is a pointer into a heap
`Nat → DxvkShader`; pointer equality of `Rc` values is equality of the
indices.  `VkPipeline` handles are natural numbers with `0` playing the
role of `VK_NULL_HANDLE`.
-/

namespace Dxvk

/-- Vulkan pipeline handles, `0` = `VK_NULL_HANDLE`. -/
abbrev VkPipeline := Nat

def VK_NULL_HANDLE : VkPipeline := 0

/-! `VkShaderStageFlagBits` values, from `vulkan_core.h`. -/

def VK_SHADER_STAGE_VERTEX_BIT : Nat := 0x00000001
def VK_SHADER_STAGE_TESSELLATION_CONTROL_BIT : Nat := 0x00000002
def VK_SHADER_STAGE_TESSELLATION_EVALUATION_BIT : Nat := 0x00000004
def VK_SHADER_STAGE_GEOMETRY_BIT : Nat := 0x00000008
def VK_SHADER_STAGE_FRAGMENT_BIT : Nat := 0x00000010
def VK_SHADER_STAGE_COMPUTE_BIT : Nat := 0x00000020

/-- Global pipeline barrier: execution stages that may access
non-render-target resources, and the corresponding access mask
(`DxvkGlobalPipelineBarrier` from `dxvk_shader.h`, not under `src/`;
fields per the spec: a stage mask and a read/write access mask). -/
structure DxvkGlobalPipelineBarrier where
  stages : Nat
  access : Nat
  deriving DecidableEq, Repr

/-- Bitwise union of two barriers. -/
def DxvkGlobalPipelineBarrier.union (a b : DxvkGlobalPipelineBarrier) :
    DxvkGlobalPipelineBarrier :=
  ⟨a.stages ||| b.stages, a.access ||| b.access⟩

/-- Modelled from the spec: `DxvkShader` (`dxvk_shader.h` is not under
`src/`).  A shader carries its declared stage (`info().stage`), the hash
value reported by `DxvkShader::getHash`, and its declared non-render-target
resource accesses used for the global barrier. -/
structure DxvkShader where
  stage : Nat
  shaderHash : Nat
  barrierStages : Nat
  barrierAccess : Nat
  deriving DecidableEq, Repr

/-- A shader heap: interprets an `Rc<DxvkShader>` index as a shader
object.  Pointer identity of `Rc<DxvkShader>` is index equality. -/
abbrev ShaderHeap := Nat → DxvkShader

/-- `shader->info()` stage lookup through an `Rc<DxvkShader>`. -/
def shaderStage (heap : ShaderHeap) (shader : Option Nat) : Option Nat :=
  shader.map fun i => (heap i).stage

/-- Modelled from the spec: `DxvkShader::getHash` (`dxvk_shader.h` is not
under `src/`); returns the shader's stored hash, or `0` for `nullptr`. -/
def DxvkShader.getHash (heap : ShaderHeap) : Option Nat → Nat
  | none => 0
  | some i => (heap i).shaderHash

/-- Modelled from the spec: `DxvkHashState` (`dxvk_hash.h` is not under
`src/`): a deterministic hash combiner over `size_t` values. -/
structure DxvkHashState where
  value : Nat
  deriving DecidableEq

/-- Modelled from the spec: `DxvkHashState::add`, combining one hash into
the accumulator modulo `2^64`. -/
def DxvkHashState.add (s : DxvkHashState) (h : Nat) : DxvkHashState :=
  ⟨(Nat.xor s.value (h + 0x9e3779b9 + s.value * 64 + s.value / 4)) % 2 ^ 64⟩

/-! ### Compute pipeline shader set (`dxvk_compute.h`, lines 26-36) -/

/-- Shaders used in compute pipelines: a single `Rc<DxvkShader> cs`. -/
structure DxvkComputePipelineShaders where
  cs : Option Nat
  deriving DecidableEq, Repr

/-- `DxvkComputePipelineShaders::eq`: `return cs == other.cs;`
(pointer identity of the `Rc`). -/
def DxvkComputePipelineShaders.eq (a other : DxvkComputePipelineShaders) : Bool :=
  a.cs == other.cs

/-- `DxvkComputePipelineShaders::hash`:
`return DxvkShader::getHash(cs);`. -/
def DxvkComputePipelineShaders.hash (heap : ShaderHeap)
    (a : DxvkComputePipelineShaders) : Nat :=
  DxvkShader.getHash heap a.cs

/-! ### Graphics pipeline shader set (`dxvk_graphics.h`, lines 36-70) -/

/-- Shaders used in graphics pipelines: five `Rc<DxvkShader>` slots. -/
structure DxvkGraphicsPipelineShaders where
  vs : Option Nat
  tcs : Option Nat
  tes : Option Nat
  gs : Option Nat
  fs : Option Nat
  deriving DecidableEq, Repr

/-- `DxvkGraphicsPipelineShaders::eq`: conjunction of pointer identity of
all five stage references. -/
def DxvkGraphicsPipelineShaders.eq (a other : DxvkGraphicsPipelineShaders) : Bool :=
  a.vs == other.vs && a.tcs == other.tcs
    && a.tes == other.tes && a.gs == other.gs
    && a.fs == other.fs

/-- `DxvkGraphicsPipelineShaders::hash`: seeds a `DxvkHashState` and adds
`DxvkShader::getHash` of each of the five stage references in order. -/
def DxvkGraphicsPipelineShaders.hash (heap : ShaderHeap)
    (a : DxvkGraphicsPipelineShaders) : Nat :=
  let state : DxvkHashState := ⟨0⟩
  let state := state.add (DxvkShader.getHash heap a.vs)
  let state := state.add (DxvkShader.getHash heap a.tcs)
  let state := state.add (DxvkShader.getHash heap a.tes)
  let state := state.add (DxvkShader.getHash heap a.gs)
  let state := state.add (DxvkShader.getHash heap a.fs)
  state.value

/-- `DxvkGraphicsPipelineShaders::validateShaderType`:
`return shader == nullptr || shader->info().stage == stage;`. -/
def DxvkGraphicsPipelineShaders.validateShaderType (heap : ShaderHeap)
    (shader : Option Nat) (stage : Nat) : Bool :=
  shader == none || shaderStage heap shader == some stage

/-- `DxvkGraphicsPipelineShaders::validate`: each of the five slots
passes `validateShaderType` against its slot's stage bit. -/
def DxvkGraphicsPipelineShaders.validate (heap : ShaderHeap)
    (a : DxvkGraphicsPipelineShaders) : Bool :=
  DxvkGraphicsPipelineShaders.validateShaderType heap a.vs VK_SHADER_STAGE_VERTEX_BIT
    && DxvkGraphicsPipelineShaders.validateShaderType heap a.tcs VK_SHADER_STAGE_TESSELLATION_CONTROL_BIT
    && DxvkGraphicsPipelineShaders.validateShaderType heap a.tes VK_SHADER_STAGE_TESSELLATION_EVALUATION_BIT
    && DxvkGraphicsPipelineShaders.validateShaderType heap a.gs VK_SHADER_STAGE_GEOMETRY_BIT
    && DxvkGraphicsPipelineShaders.validateShaderType heap a.fs VK_SHADER_STAGE_FRAGMENT_BIT

/-! ### State vectors -/

/-- Modelled from the spec: `DxvkComputePipelineStateInfo`
(`dxvk_graphics_state.h` is not under `src/`).  The compute state key is
trivial; a single field keeps the type a comparable value type. -/
structure DxvkComputePipelineStateInfo where
  specConstantMask : Nat
  deriving DecidableEq, Repr

/-- Modelled from the spec: `DxvkGraphicsPipelineStateInfo`
(`dxvk_graphics_state.h` is not under `src/`).  A composite value over
vertex input, topology, tessellation patch parameters, rasterizer,
multisample, depth/stencil, blend and render-target format fields;
equality is field-wise. -/
structure DxvkGraphicsPipelineStateInfo where
  iaPrimitiveTopology : Nat
  iaPatchVertexCount : Nat
  ilBindingCount : Nat
  rsCullMode : Nat
  rsPolygonMode : Nat
  rsDepthBiasEnable : Bool
  msSampleCount : Nat
  msSampleShadingEnable : Bool
  dsEnableDepthTest : Bool
  omBlendEnable : Bool
  omLogicOp : Nat
  rtColorFormat : Nat
  rtDepthFormat : Nat
  deriving DecidableEq, Repr

/-! ### Pipeline instances -/

/-- Graphics pipeline instance (`dxvk_graphics.h`, lines 91-129): pairs a
state vector with a pipeline handle. -/
structure DxvkGraphicsPipelineInstance where
  m_stateVector : DxvkGraphicsPipelineStateInfo
  m_pipeline : VkPipeline
  deriving DecidableEq, Repr

/-- `DxvkGraphicsPipelineInstance::isCompatible`:
`return m_stateVector == state;` (structural equality of the stored state
vector against the queried state). -/
def DxvkGraphicsPipelineInstance.isCompatible
    (inst : DxvkGraphicsPipelineInstance)
    (state : DxvkGraphicsPipelineStateInfo) : Bool :=
  inst.m_stateVector == state

/-- `DxvkGraphicsPipelineInstance::pipeline`. -/
def DxvkGraphicsPipelineInstance.pipeline
    (inst : DxvkGraphicsPipelineInstance) : VkPipeline :=
  inst.m_pipeline

/-- A pipeline instance generic over the state-vector type, covering both
`DxvkComputePipelineInstance` and `DxvkGraphicsPipelineInstance`: a state
vector paired with the compiled handle. -/
structure PipelineInstance (σ : Type) where
  state : σ
  handle : VkPipeline
  deriving DecidableEq, Repr

/-- The mutable part of a logical pipeline shared by
`DxvkComputePipeline` and `DxvkGraphicsPipeline`: the append-only
instance list `m_pipelines`, plus two observation ghosts — the number of
device `createPipeline` invocations and the list of states passed to
`writePipelineStateToCache` (the persistent-cache record sink). -/
structure PipelineObject (σ : Type) where
  pipelines : List (PipelineInstance σ)
  createCalls : Nat
  recorded : List σ
  deriving DecidableEq, Repr

variable {σ : Type} [DecidableEq σ]

/-- Modelled from the spec: `findInstance` (bodies in the `.cpp` files are
not under `src/`): a read-only scan returning the first instance whose
stored state vector equals the queried key — for graphics this is the
first instance whose `isCompatible(state)` holds. -/
def findInstance (pipelines : List (PipelineInstance σ)) (state : σ) :
    Option (PipelineInstance σ) :=
  pipelines.find? fun inst => inst.state == state

/-- Modelled from the spec: `createInstance` (body not under `src/`):
invokes the device-level `createPipeline` (here the parameter `create`,
returning `none` on a device `PipelineCreationFailure`); on success
appends a new instance holding the state and the fresh handle; on failure
inserts nothing.  The returned object counts the creation attempt. -/
def createInstance (create : σ → Option VkPipeline) (state : σ)
    (st : PipelineObject σ) :
    Option (PipelineInstance σ) × PipelineObject σ :=
  match create state with
  | none => (none, { st with createCalls := st.createCalls + 1 })
  | some h =>
      let inst : PipelineInstance σ := ⟨state, h⟩
      (some inst,
        { st with
            pipelines := st.pipelines ++ [inst],
            createCalls := st.createCalls + 1 })

/-- Modelled from the spec: `writePipelineStateToCache` (body not under
`src/`): records the state vector to the persistent state cache.
`recordOk = false` models a recording failure, which is dropped: the
instance list and the handles are untouched either way. -/
def writePipelineStateToCache (recordOk : Bool) (state : σ)
    (st : PipelineObject σ) : PipelineObject σ :=
  if recordOk then { st with recorded := st.recorded ++ [state] } else st

/-- Modelled from the spec: the exclusive section of the miss path of
`getPipelineHandle` (body not under `src/`).  Holding `m_mutex`, the
instance list is re-checked; only if the key is still absent is the
device `createPipeline` invoked, the new instance appended, and the state
recorded to the persistent cache.  Returns the handle (`none` on a
creation failure, in which case nothing is inserted). -/
def lockedInsert (create : σ → Option VkPipeline) (recordOk : Bool)
    (state : σ) (st : PipelineObject σ) :
    Option VkPipeline × PipelineObject σ :=
  match findInstance st.pipelines state with
  | some inst => (some inst.handle, st)
  | none =>
      match createInstance create state st with
      | (none, st') => (none, st')
      | (some inst, st') =>
          (some inst.handle, writePipelineStateToCache recordOk state st')

/-- Modelled from the spec: `getPipelineHandle` (body not under `src/`):
look up the state under shared access; on a hit return the stored handle;
on a miss acquire `m_mutex` and run the re-check/create/insert section.
A device creation failure is surfaced to the caller as `none`. -/
def getPipelineHandle (create : σ → Option VkPipeline) (recordOk : Bool)
    (state : σ) (st : PipelineObject σ) :
    Option VkPipeline × PipelineObject σ :=
  match findInstance st.pipelines state with
  | some inst => (some inst.handle, st)
  | none => lockedInsert create recordOk state st

/-- Modelled from the spec: `compilePipeline` (body not under `src/`):
the same find-or-create path as `getPipelineHandle`, invoked from a
background task; the resulting handle or creation failure is logged and
discarded, never propagated (the return type carries no error). -/
def compilePipeline (create : σ → Option VkPipeline) (recordOk : Bool)
    (state : σ) (st : PipelineObject σ) : PipelineObject σ :=
  (getPipelineHandle create recordOk state st).2

/-! ### Graphics state validation (`validatePipelineState`, line 262) -/

/-- Outcome of `validatePipelineState`: the state is accepted and may be
sent to device creation, rejected (untrusted caller), or treated as a
fatal internal assertion (trusted caller). -/
inductive ValidationOutcome where
  | accepted
  | rejected
  | fatalAssert
  deriving DecidableEq, Repr

/-- Whether the state vector has tessellation parameters set. -/
def tessellationStateSet (state : DxvkGraphicsPipelineStateInfo) : Bool :=
  state.iaPatchVertexCount != 0

/-- Whether the ShaderSet contains the tessellation stages. -/
def hasTessellationShaders (shaders : DxvkGraphicsPipelineShaders) : Bool :=
  shaders.tcs.isSome && shaders.tes.isSome

/-- Modelled from the spec: `DxvkGraphicsPipeline::validatePipelineState`
(body not under `src/`): checks structural consistency — tessellation
state present iff both tessellation shaders are present.  A violation is
rejected when `trusted` is false and is a fatal internal assertion when
`trusted` is true; only consistent states are accepted. -/
def validatePipelineState (shaders : DxvkGraphicsPipelineShaders)
    (state : DxvkGraphicsPipelineStateInfo) (trusted : Bool) :
    ValidationOutcome :=
  if tessellationStateSet state != hasTessellationShaders shaders then
    if trusted then ValidationOutcome.fatalAssert else ValidationOutcome.rejected
  else
    ValidationOutcome.accepted

/-! ### Construction-time ShaderSet acceptance (`validate`, lines 59-69) -/

/-- Outcome of logical-pipeline construction. -/
inductive ConstructOutcome where
  | ok
  | shaderStageMismatch
  deriving DecidableEq, Repr

/-- Modelled from the spec: graphics-pipeline construction accepts a
ShaderSet only if `DxvkGraphicsPipelineShaders::validate` holds; a
violation is the fatal construction-time error `ShaderStageMismatch`. -/
def constructGraphicsPipeline (heap : ShaderHeap)
    (shaders : DxvkGraphicsPipelineShaders) : ConstructOutcome :=
  if shaders.validate heap then ConstructOutcome.ok
  else ConstructOutcome.shaderStageMismatch

/-! ### Global barrier (`getGlobalBarrier`, line 199; `m_barrier`, line 234) -/

/-- The declared non-render-target resource accesses of one shader slot:
zero for an absent shader, the shader's declared stage/access masks
otherwise. -/
def shaderBarrier (heap : ShaderHeap) : Option Nat → DxvkGlobalPipelineBarrier
  | none => ⟨0, 0⟩
  | some i => ⟨(heap i).barrierStages, (heap i).barrierAccess⟩

/-- Modelled from the spec: the immutable `m_barrier` summary computed at
construction: the union over all active shader stages of each stage's
declared resource accesses (excluding render targets). -/
def DxvkGraphicsPipelineShaders.globalBarrier (heap : ShaderHeap)
    (shaders : DxvkGraphicsPipelineShaders) : DxvkGlobalPipelineBarrier :=
  ((((shaderBarrier heap shaders.vs).union
      (shaderBarrier heap shaders.tcs)).union
      (shaderBarrier heap shaders.tes)).union
      (shaderBarrier heap shaders.gs)).union
      (shaderBarrier heap shaders.fs)

/-- The graphics logical pipeline: the immutable ShaderSet `m_shaders`
together with the mutable instance-cache part (`m_pipelines` and the
observation ghosts). -/
structure DxvkGraphicsPipeline where
  m_shaders : DxvkGraphicsPipelineShaders
  cache : PipelineObject DxvkGraphicsPipelineStateInfo

/-- Modelled from the spec: `DxvkGraphicsPipeline::getGlobalBarrier`
(body not under `src/`): a pure function of the ShaderSet and the given
state, reading only the construction-time `m_barrier` summary. -/
def DxvkGraphicsPipeline.getGlobalBarrier (heap : ShaderHeap)
    (p : DxvkGraphicsPipeline) (_state : DxvkGraphicsPipelineStateInfo) :
    DxvkGlobalPipelineBarrier :=
  p.m_shaders.globalBarrier heap

/-! ### Concurrency model for `getPipelineHandle`

The spec's scheduling model: worker threads call `getPipelineHandle`
concurrently; the read-locked `find` may interleave freely, while the
`m_mutex`-guarded re-check/create/insert section is a single exclusive
critical section.  Each caller is a small program:

* `start`  — about to perform the shared-access `findInstance`;
* `locked` — the shared-access find missed; waiting on `m_mutex`;
* `done r` — returned with result `r`.
-/

/-- Program counter of one concurrent `getPipelineHandle` caller. -/
inductive CallerPC where
  | start
  | locked
  | done (result : Option VkPipeline)
  deriving DecidableEq, Repr

/-- A configuration of `n` concurrent callers over the shared pipeline
object. -/
structure Config (σ : Type) (n : Nat) where
  shared : PipelineObject σ
  callers : Fin n → CallerPC

/-- One scheduler step: a non-finished caller executes its next atomic
action.  The read-locked find is one atomic read; the mutex-guarded
re-check/create/insert section (`lockedInsert`) is one atomic action,
reflecting mutual exclusion. -/
inductive Step (create : σ → Option VkPipeline) (recordOk : Bool)
    (state : σ) {n : Nat} : Config σ n → Config σ n → Prop where
  | findHit (c : Config σ n) (i : Fin n) (inst : PipelineInstance σ)
      (hpc : c.callers i = CallerPC.start)
      (hfind : findInstance c.shared.pipelines state = some inst) :
      Step create recordOk state c
        ⟨c.shared, Function.update c.callers i (CallerPC.done (some inst.handle))⟩
  | findMiss (c : Config σ n) (i : Fin n)
      (hpc : c.callers i = CallerPC.start)
      (hfind : findInstance c.shared.pipelines state = none) :
      Step create recordOk state c
        ⟨c.shared, Function.update c.callers i CallerPC.locked⟩
  | enterLock (c : Config σ n) (i : Fin n)
      (hpc : c.callers i = CallerPC.locked) :
      Step create recordOk state c
        ⟨(lockedInsert create recordOk state c.shared).2,
         Function.update c.callers i
           (CallerPC.done (lockedInsert create recordOk state c.shared).1)⟩

/-- All callers start at `start` over the initial shared object. -/
def initConfig (st : PipelineObject σ) (n : Nat) : Config σ n :=
  ⟨st, fun _ => CallerPC.start⟩

/-! ### Concrete sample data for instantiating the theorems -/

/-- An all-default graphics state vector. -/
def sampleState : DxvkGraphicsPipelineStateInfo :=
  ⟨0, 0, 0, 0, 0, false, 1, false, false, false, 0, 0, 0⟩

/-- A graphics state vector with tessellation patch parameters set. -/
def tessState : DxvkGraphicsPipelineStateInfo :=
  ⟨0, 3, 0, 0, 0, false, 1, false, false, false, 0, 0, 0⟩

/-- A sample shader heap: shader `0` is a vertex shader, shader `1` a
fragment shader, anything else a compute shader. -/
def sampleHeap : ShaderHeap := fun i =>
  if i = 0 then ⟨VK_SHADER_STAGE_VERTEX_BIT, 11, 2, 32768⟩
  else if i = 1 then ⟨VK_SHADER_STAGE_FRAGMENT_BIT, 22, 128, 64⟩
  else ⟨VK_SHADER_STAGE_COMPUTE_BIT, 33, 2048, 64⟩

/-- A vertex+fragment ShaderSet over `sampleHeap`. -/
def sampleShaders : DxvkGraphicsPipelineShaders :=
  ⟨some 0, none, none, none, some 1⟩

/-- The invariant of the concurrent at-most-one-creation argument for a
previously-unseen state: either no creation has happened yet (the shared
object is untouched and no caller has finished), or exactly one instance
for the state has been appended, exactly one device creation is counted,
and every finished caller holds the one published handle. -/
def C1Invariant (state : σ) (st₀ : PipelineObject σ) (h₀ : VkPipeline)
    {n : Nat} (c : Config σ n) : Prop :=
  (c.shared = st₀
    ∧ ∀ i, c.callers i = CallerPC.start ∨ c.callers i = CallerPC.locked)
  ∨ (c.shared.pipelines = st₀.pipelines ++ [⟨state, h₀⟩]
      ∧ c.shared.createCalls = st₀.createCalls + 1
      ∧ ∀ i, c.callers i = CallerPC.start ∨ c.callers i = CallerPC.locked
          ∨ c.callers i = CallerPC.done (some h₀))

/-! Concrete two-caller schedule used to instantiate the concurrency
theorem: caller `0` misses, creates under the mutex, then caller `1`
hits the published instance. -/

/-- Device-creation function for the concrete schedule. -/
def c1Create : DxvkGraphicsPipelineStateInfo → Option VkPipeline :=
  fun _ => some 7

/-- Initial configuration: empty cache, two callers. -/
def c1C0 : Config DxvkGraphicsPipelineStateInfo 2 :=
  initConfig ⟨[], 0, []⟩ 2

/-- After caller `0` read-misses. -/
def c1C1 : Config DxvkGraphicsPipelineStateInfo 2 :=
  ⟨c1C0.shared, Function.update c1C0.callers 0 CallerPC.locked⟩

/-- After caller `0` runs the exclusive re-check/create/insert section. -/
def c1C2 : Config DxvkGraphicsPipelineStateInfo 2 :=
  ⟨(lockedInsert c1Create true sampleState c1C1.shared).2,
   Function.update c1C1.callers 0
     (CallerPC.done (lockedInsert c1Create true sampleState c1C1.shared).1)⟩

/-- After caller `1` read-hits the published instance. -/
def c1C3 : Config DxvkGraphicsPipelineStateInfo 2 :=
  ⟨c1C2.shared,
   Function.update c1C2.callers 1
     (CallerPC.done (some (PipelineInstance.handle ⟨sampleState, 7⟩)))⟩

/-! ## Helper lemmas -/

omit [DecidableEq σ] in
@[simp]
theorem writePipelineStateToCache_pipelines (recordOk : Bool) (s : σ)
    (st : PipelineObject σ) :
    (writePipelineStateToCache recordOk s st).pipelines = st.pipelines := by
  unfold writePipelineStateToCache
  split <;> rfl

omit [DecidableEq σ] in
@[simp]
theorem writePipelineStateToCache_createCalls (recordOk : Bool) (s : σ)
    (st : PipelineObject σ) :
    (writePipelineStateToCache recordOk s st).createCalls = st.createCalls := by
  unfold writePipelineStateToCache
  split <;> rfl

theorem findInstance_append_fresh (l : List (PipelineInstance σ)) (s : σ)
    (h : VkPipeline) (hl : findInstance l s = none) :
    findInstance (l ++ [⟨s, h⟩]) s = some ⟨s, h⟩ := by
  unfold findInstance at hl ⊢
  rw [List.find?_append, hl]
  simp

theorem lockedInsert_hit (create : σ → Option VkPipeline) (recordOk : Bool)
    (s : σ) (st : PipelineObject σ) (inst : PipelineInstance σ)
    (hfind : findInstance st.pipelines s = some inst) :
    lockedInsert create recordOk s st = (some inst.handle, st) := by
  unfold lockedInsert
  rw [hfind]

theorem lockedInsert_fresh_success (create : σ → Option VkPipeline)
    (recordOk : Bool) (s : σ) (st : PipelineObject σ) (h₀ : VkPipeline)
    (hfresh : findInstance st.pipelines s = none)
    (hc : create s = some h₀) :
    lockedInsert create recordOk s st
      = (some h₀, writePipelineStateToCache recordOk s
          { st with
              pipelines := st.pipelines ++ [⟨s, h₀⟩],
              createCalls := st.createCalls + 1 }) := by
  unfold lockedInsert createInstance
  rw [hfresh, hc]

theorem lockedInsert_fresh_failure (create : σ → Option VkPipeline)
    (recordOk : Bool) (s : σ) (st : PipelineObject σ)
    (hfresh : findInstance st.pipelines s = none)
    (hc : create s = none) :
    lockedInsert create recordOk s st
      = (none, { st with createCalls := st.createCalls + 1 }) := by
  unfold lockedInsert createInstance
  rw [hfresh, hc]

theorem getPipelineHandle_hit (create : σ → Option VkPipeline)
    (recordOk : Bool) (s : σ) (st : PipelineObject σ)
    (inst : PipelineInstance σ)
    (hfind : findInstance st.pipelines s = some inst) :
    getPipelineHandle create recordOk s st = (some inst.handle, st) := by
  unfold getPipelineHandle
  rw [hfind]

theorem getPipelineHandle_miss (create : σ → Option VkPipeline)
    (recordOk : Bool) (s : σ) (st : PipelineObject σ)
    (hfind : findInstance st.pipelines s = none) :
    getPipelineHandle create recordOk s st = lockedInsert create recordOk s st := by
  unfold getPipelineHandle
  rw [hfind]

theorem getPipelineHandle_found (create : σ → Option VkPipeline)
    (recordOk : Bool) (s : σ) (st st' : PipelineObject σ) (hdl : VkPipeline)
    (hres : getPipelineHandle create recordOk s st = (some hdl, st')) :
    ∃ inst : PipelineInstance σ,
      findInstance st'.pipelines s = some inst ∧ inst.handle = hdl := by
  cases hfind : findInstance st.pipelines s with
  | some inst =>
      rw [getPipelineHandle_hit create recordOk s st inst hfind] at hres
      injection hres with h1 h2
      injection h1 with h1
      exact ⟨inst, h2 ▸ hfind, h1⟩
  | none =>
      rw [getPipelineHandle_miss create recordOk s st hfind] at hres
      cases hc : create s with
      | none =>
          rw [lockedInsert_fresh_failure create recordOk s st hfind hc] at hres
          injection hres with h1 h2
          exact Option.noConfusion h1
      | some h₀ =>
          rw [lockedInsert_fresh_success create recordOk s st h₀ hfind hc] at hres
          injection hres with h1 h2
          injection h1 with h1
          refine ⟨⟨s, h₀⟩, ?_, h1⟩
          rw [← h2]
          simp only [writePipelineStateToCache_pipelines]
          exact findInstance_append_fresh st.pipelines s h₀ hfind

/-! ## Claim theorems -/

theorem validateShaderType_iff (heap : ShaderHeap) (shader : Option Nat)
    (stage : Nat) :
    DxvkGraphicsPipelineShaders.validateShaderType heap shader stage = true
      ↔ ∀ i, shader = some i → (heap i).stage = stage := by
  cases shader with
  | none => simp [DxvkGraphicsPipelineShaders.validateShaderType]
  | some i => simp [DxvkGraphicsPipelineShaders.validateShaderType, shaderStage]

/-- Claim C10: ShaderSet hashing is consistent with ShaderSet equality:
`eq` (identity equality of the stage references) implies equal `hash`,
both for `DxvkComputePipelineShaders` and `DxvkGraphicsPipelineShaders`. -/
theorem shaderSet_hash_consistent_with_eq :
    (∀ (heap : ShaderHeap) (a b : DxvkComputePipelineShaders),
        a.eq b = true → a.hash heap = b.hash heap)
    ∧ ∀ (heap : ShaderHeap) (a b : DxvkGraphicsPipelineShaders),
        a.eq b = true → a.hash heap = b.hash heap := by
  constructor
  · intro heap a b h
    have hcs : a.cs = b.cs := by
      simpa [DxvkComputePipelineShaders.eq] using h
    simp [DxvkComputePipelineShaders.hash, hcs]
  · intro heap a b h
    simp only [DxvkGraphicsPipelineShaders.eq, Bool.and_eq_true,
      beq_iff_eq] at h
    obtain ⟨⟨⟨⟨h1, h2⟩, h3⟩, h4⟩, h5⟩ := h
    simp [DxvkGraphicsPipelineShaders.hash, h1, h2, h3, h4, h5]

theorem shaderSet_hash_consistent_with_eq_witness :
    (DxvkComputePipelineShaders.eq ⟨some 2⟩ ⟨some 2⟩ = true
      ∧ DxvkComputePipelineShaders.hash sampleHeap ⟨some 2⟩
        = DxvkComputePipelineShaders.hash sampleHeap ⟨some 2⟩)
    ∧ DxvkGraphicsPipelineShaders.eq sampleShaders sampleShaders = true
      ∧ DxvkGraphicsPipelineShaders.hash sampleHeap sampleShaders
        = DxvkGraphicsPipelineShaders.hash sampleHeap sampleShaders :=
  ⟨⟨by decide,
    shaderSet_hash_consistent_with_eq.1 sampleHeap ⟨some 2⟩ ⟨some 2⟩ (by decide)⟩,
   by decide,
   shaderSet_hash_consistent_with_eq.2 sampleHeap sampleShaders sampleShaders
     (by decide)⟩

/-- Claim C9: `DxvkGraphicsPipelineShaders::validate` returns `true` iff
each of the five slots is null or declares exactly its slot's stage, and
pipeline construction accepts a ShaderSet iff it validates — a violation
is the fatal construction-time `ShaderStageMismatch`. -/
theorem shaderSet_stage_slot_invariant (heap : ShaderHeap)
    (sh : DxvkGraphicsPipelineShaders) :
    (sh.validate heap = true
      ↔ ((∀ i, sh.vs = some i → (heap i).stage = VK_SHADER_STAGE_VERTEX_BIT)
          ∧ (∀ i, sh.tcs = some i →
              (heap i).stage = VK_SHADER_STAGE_TESSELLATION_CONTROL_BIT)
          ∧ (∀ i, sh.tes = some i →
              (heap i).stage = VK_SHADER_STAGE_TESSELLATION_EVALUATION_BIT)
          ∧ (∀ i, sh.gs = some i → (heap i).stage = VK_SHADER_STAGE_GEOMETRY_BIT)
          ∧ (∀ i, sh.fs = some i → (heap i).stage = VK_SHADER_STAGE_FRAGMENT_BIT)))
    ∧ (constructGraphicsPipeline heap sh = ConstructOutcome.ok
        ↔ sh.validate heap = true)
    ∧ (sh.validate heap = false →
        constructGraphicsPipeline heap sh = ConstructOutcome.shaderStageMismatch) := by
  refine ⟨?_, ?_, ?_⟩
  · unfold DxvkGraphicsPipelineShaders.validate
    simp only [Bool.and_eq_true, validateShaderType_iff]
    tauto
  · unfold constructGraphicsPipeline
    cases h : sh.validate heap <;> simp
  · intro h
    unfold constructGraphicsPipeline
    rw [h]
    rfl

theorem shaderSet_stage_slot_invariant_witness :
    (sampleShaders.validate sampleHeap = true
      ∧ constructGraphicsPipeline sampleHeap sampleShaders = ConstructOutcome.ok)
    ∧ (DxvkGraphicsPipelineShaders.validate sampleHeap ⟨some 1, none, none, none, none⟩ = false
      ∧ constructGraphicsPipeline sampleHeap ⟨some 1, none, none, none, none⟩
        = ConstructOutcome.shaderStageMismatch) :=
  ⟨⟨by decide,
    (shaderSet_stage_slot_invariant sampleHeap sampleShaders).2.1.mpr (by decide)⟩,
   by decide,
   (shaderSet_stage_slot_invariant sampleHeap
     ⟨some 1, none, none, none, none⟩).2.2 (by decide)⟩

/-- Claim C6: a graphics state with tessellation parameters set but no
tessellation shaders in the ShaderSet is never accepted by
`validatePipelineState`: it is rejected when `trusted` is false and a
fatal internal assertion when `trusted` is true. -/
theorem tessellation_validation_gating (sh : DxvkGraphicsPipelineShaders)
    (state : DxvkGraphicsPipelineStateInfo) (trusted : Bool)
    (hts : tessellationStateSet state = true)
    (htcs : sh.tcs = none) (htes : sh.tes = none) :
    validatePipelineState sh state trusted
      = (if trusted then ValidationOutcome.fatalAssert
         else ValidationOutcome.rejected)
    ∧ validatePipelineState sh state trusted ≠ ValidationOutcome.accepted := by
  have hshaders : hasTessellationShaders sh = false := by
    simp [hasTessellationShaders, htcs, htes]
  unfold validatePipelineState
  rw [hts, hshaders]
  cases trusted <;> simp

theorem tessellation_validation_gating_witness :
    (validatePipelineState sampleShaders tessState false
        = ValidationOutcome.rejected
      ∧ validatePipelineState sampleShaders tessState false
        ≠ ValidationOutcome.accepted)
    ∧ validatePipelineState sampleShaders tessState true
        = ValidationOutcome.fatalAssert
      ∧ validatePipelineState sampleShaders tessState true
        ≠ ValidationOutcome.accepted :=
  ⟨tessellation_validation_gating sampleShaders tessState false
      (by decide) rfl rfl,
   tessellation_validation_gating sampleShaders tessState true
      (by decide) rfl rfl⟩

/-- Claim C8: `getGlobalBarrier` is a pure function of the ShaderSet and
the given state: its value is the bitwise union of each shader stage's
declared resource accesses and is unchanged by instance-cache activity
(any `compilePipeline` or `getPipelineHandle` call, any cache contents). -/
theorem getGlobalBarrier_pure (heap : ShaderHeap)
    (sh : DxvkGraphicsPipelineShaders)
    (cacheA cacheB : PipelineObject DxvkGraphicsPipelineStateInfo)
    (state : DxvkGraphicsPipelineStateInfo)
    (create : DxvkGraphicsPipelineStateInfo → Option VkPipeline)
    (recordOk : Bool) (s : DxvkGraphicsPipelineStateInfo) :
    DxvkGraphicsPipeline.getGlobalBarrier heap ⟨sh, cacheA⟩ state
        = DxvkGraphicsPipeline.getGlobalBarrier heap ⟨sh, cacheB⟩ state
    ∧ DxvkGraphicsPipeline.getGlobalBarrier heap
          ⟨sh, compilePipeline create recordOk s cacheA⟩ state
        = DxvkGraphicsPipeline.getGlobalBarrier heap ⟨sh, cacheA⟩ state
    ∧ DxvkGraphicsPipeline.getGlobalBarrier heap
          ⟨sh, (getPipelineHandle create recordOk s cacheA).2⟩ state
        = DxvkGraphicsPipeline.getGlobalBarrier heap ⟨sh, cacheA⟩ state
    ∧ (DxvkGraphicsPipeline.getGlobalBarrier heap ⟨sh, cacheA⟩ state).stages
        = (shaderBarrier heap sh.vs).stages
            ||| (shaderBarrier heap sh.tcs).stages
            ||| (shaderBarrier heap sh.tes).stages
            ||| (shaderBarrier heap sh.gs).stages
            ||| (shaderBarrier heap sh.fs).stages
    ∧ (DxvkGraphicsPipeline.getGlobalBarrier heap ⟨sh, cacheA⟩ state).access
        = (shaderBarrier heap sh.vs).access
            ||| (shaderBarrier heap sh.tcs).access
            ||| (shaderBarrier heap sh.tes).access
            ||| (shaderBarrier heap sh.gs).access
            ||| (shaderBarrier heap sh.fs).access :=
  ⟨rfl, rfl, rfl, rfl, rfl⟩

/-- Claim C5: `compilePipeline` is idempotent: if an instance for the
state already exists — in particular after a successful
`getPipelineHandle` for that state — a `compilePipeline` call performs no
device creation and leaves the pipeline object unchanged beyond the
lookup. -/
theorem compilePipeline_idempotent (create create2 : σ → Option VkPipeline)
    (recordOk recordOk2 : Bool) (s : σ) (st st' : PipelineObject σ)
    (inst : PipelineInstance σ) (hdl : VkPipeline) :
    (findInstance st.pipelines s = some inst →
      compilePipeline create recordOk s st = st)
    ∧ (getPipelineHandle create recordOk s st = (some hdl, st') →
      compilePipeline create2 recordOk2 s st' = st'
      ∧ (compilePipeline create2 recordOk2 s st').createCalls
        = st'.createCalls) := by
  constructor
  · intro hfind
    unfold compilePipeline
    rw [getPipelineHandle_hit create recordOk s st inst hfind]
  · intro hres
    obtain ⟨inst', hfind', _⟩ :=
      getPipelineHandle_found create recordOk s st st' hdl hres
    have h : compilePipeline create2 recordOk2 s st' = st' := by
      unfold compilePipeline
      rw [getPipelineHandle_hit create2 recordOk2 s st' inst' hfind']
    exact ⟨h, by rw [h]⟩

theorem compilePipeline_idempotent_witness :
    getPipelineHandle (fun _ => some 5) true (⟨0⟩ : DxvkComputePipelineStateInfo)
        ⟨[], 0, []⟩
      = (some 5, ⟨[⟨⟨0⟩, 5⟩], 1, [⟨0⟩]⟩)
    ∧ compilePipeline (fun _ => some 5) true (⟨0⟩ : DxvkComputePipelineStateInfo)
        ⟨[⟨⟨0⟩, 5⟩], 1, [⟨0⟩]⟩
      = ⟨[⟨⟨0⟩, 5⟩], 1, [⟨0⟩]⟩ :=
  ⟨by decide,
   ((compilePipeline_idempotent (fun _ => some 5) (fun _ => some 5) true true
      (⟨0⟩ : DxvkComputePipelineStateInfo) ⟨[], 0, []⟩
      ⟨[⟨⟨0⟩, 5⟩], 1, [⟨0⟩]⟩ ⟨⟨0⟩, 5⟩ 5).2 (by decide)).1⟩

/-- Claim C7: the persistent-cache `writePipelineStateToCache` record is
issued exactly once on a successful first creation for a state, never on
a cache hit, and a failure of the recording does not change the handle
returned to the caller. -/
theorem persistent_cache_record_once (create : σ → Option VkPipeline)
    (s : σ) (st : PipelineObject σ) (hdl : VkPipeline)
    (inst : PipelineInstance σ) :
    (findInstance st.pipelines s = none → create s = some hdl →
      (getPipelineHandle create true s st).2.recorded = st.recorded ++ [s])
    ∧ (findInstance st.pipelines s = some inst →
      ∀ recordOk, (getPipelineHandle create recordOk s st).2.recorded
        = st.recorded)
    ∧ (getPipelineHandle create false s st).1
        = (getPipelineHandle create true s st).1 := by
  refine ⟨?_, ?_, ?_⟩
  · intro hfind hc
    rw [getPipelineHandle_miss create true s st hfind,
      lockedInsert_fresh_success create true s st hdl hfind hc]
    simp [writePipelineStateToCache]
  · intro hfind recordOk
    rw [getPipelineHandle_hit create recordOk s st inst hfind]
  · cases hfind : findInstance st.pipelines s with
    | some i =>
        rw [getPipelineHandle_hit create false s st i hfind,
          getPipelineHandle_hit create true s st i hfind]
    | none =>
        rw [getPipelineHandle_miss create false s st hfind,
          getPipelineHandle_miss create true s st hfind]
        cases hc : create s with
        | none =>
            rw [lockedInsert_fresh_failure create false s st hfind hc,
              lockedInsert_fresh_failure create true s st hfind hc]
        | some h₀ =>
            rw [lockedInsert_fresh_success create false s st h₀ hfind hc,
              lockedInsert_fresh_success create true s st h₀ hfind hc]

theorem persistent_cache_record_once_witness :
    ((getPipelineHandle (fun _ => some 9) true sampleState
        (⟨[], 0, []⟩ : PipelineObject DxvkGraphicsPipelineStateInfo)).2.recorded
      = [] ++ [sampleState])
    ∧ ((getPipelineHandle (fun _ => some 9) true sampleState
        ⟨[⟨sampleState, 9⟩], 1, [sampleState]⟩).2.recorded = [sampleState])
    ∧ (getPipelineHandle (fun _ => some 9) false sampleState
        (⟨[], 0, []⟩ : PipelineObject DxvkGraphicsPipelineStateInfo)).1
      = (getPipelineHandle (fun _ => some 9) true sampleState
        (⟨[], 0, []⟩ : PipelineObject DxvkGraphicsPipelineStateInfo)).1 :=
  ⟨(persistent_cache_record_once (fun _ => some 9) sampleState ⟨[], 0, []⟩ 9
      ⟨sampleState, 9⟩).1 (by decide) rfl,
   (persistent_cache_record_once (fun _ => some 9) sampleState
      ⟨[⟨sampleState, 9⟩], 1, [sampleState]⟩ 9 ⟨sampleState, 9⟩).2.1
      (by decide) true,
   (persistent_cache_record_once (fun _ => some 9) sampleState ⟨[], 0, []⟩ 9
      ⟨sampleState, 9⟩).2.2⟩

/-- Claim C3: the miss path is check-compute-check-insert: a read-miss in
`getPipelineHandle` defers to the mutex-guarded `lockedInsert`; after
acquiring the mutex the cache is re-checked, a hit at that point returns
the existing handle with no device creation and no cache change, and the
creator runs (the creation count grows) exactly when the key is still
absent. -/
theorem check_compute_check_insert (create : σ → Option VkPipeline)
    (recordOk : Bool) (s : σ) (st : PipelineObject σ)
    (inst : PipelineInstance σ) :
    (findInstance st.pipelines s = none →
      getPipelineHandle create recordOk s st = lockedInsert create recordOk s st)
    ∧ (findInstance st.pipelines s = some inst →
      lockedInsert create recordOk s st = (some inst.handle, st))
    ∧ (lockedInsert create recordOk s st).2.createCalls
        = st.createCalls
            + (if findInstance st.pipelines s = none then 1 else 0) := by
  refine ⟨getPipelineHandle_miss create recordOk s st,
    lockedInsert_hit create recordOk s st inst, ?_⟩
  cases hfind : findInstance st.pipelines s with
  | some i =>
      rw [lockedInsert_hit create recordOk s st i hfind]
      simp
  | none =>
      cases hc : create s with
      | none =>
          rw [lockedInsert_fresh_failure create recordOk s st hfind hc]
          simp
      | some h₀ =>
          rw [lockedInsert_fresh_success create recordOk s st h₀ hfind hc]
          simp

theorem check_compute_check_insert_witness :
    (getPipelineHandle (fun _ => some 4) true sampleState
        (⟨[], 0, []⟩ : PipelineObject DxvkGraphicsPipelineStateInfo)
      = lockedInsert (fun _ => some 4) true sampleState ⟨[], 0, []⟩)
    ∧ (lockedInsert (fun _ => some 4) true sampleState
        ⟨[⟨sampleState, 4⟩], 1, [sampleState]⟩
      = (some 4, ⟨[⟨sampleState, 4⟩], 1, [sampleState]⟩))
    ∧ (lockedInsert (fun _ => some 4) true sampleState
        (⟨[⟨sampleState, 4⟩], 1, [sampleState]⟩ :
          PipelineObject DxvkGraphicsPipelineStateInfo)).2.createCalls = 1 :=
  ⟨(check_compute_check_insert (fun _ => some 4) true sampleState ⟨[], 0, []⟩
      ⟨sampleState, 4⟩).1 (by decide),
   (check_compute_check_insert (fun _ => some 4) true sampleState
      ⟨[⟨sampleState, 4⟩], 1, [sampleState]⟩ ⟨sampleState, 4⟩).2.1 (by decide),
   by decide⟩

/-- Claim C4: when device creation fails for a state, no instance is
inserted and nothing is recorded; the failure is surfaced to the
synchronous caller as a failed handle, while `compilePipeline` discards
it (its return carries no error); the failure is not negatively cached —
a later call for the same state invokes device creation again and
succeeds if the device now succeeds. -/
theorem creation_failure_isolation (create create2 : σ → Option VkPipeline)
    (recordOk : Bool) (s : σ) (st : PipelineObject σ) (hdl : VkPipeline)
    (hfind : findInstance st.pipelines s = none)
    (hfail : create s = none) :
    (getPipelineHandle create recordOk s st).1 = none
    ∧ (getPipelineHandle create recordOk s st).2.pipelines = st.pipelines
    ∧ (getPipelineHandle create recordOk s st).2.recorded = st.recorded
    ∧ (compilePipeline create recordOk s st).pipelines = st.pipelines
    ∧ (create2 s = some hdl →
        (getPipelineHandle create2 recordOk s
          (compilePipeline create recordOk s st)).1 = some hdl
        ∧ (getPipelineHandle create2 recordOk s
            (compilePipeline create recordOk s st)).2.createCalls
          = (compilePipeline create recordOk s st).createCalls + 1) := by
  have hmiss : getPipelineHandle create recordOk s st
      = (none, { st with createCalls := st.createCalls + 1 }) := by
    rw [getPipelineHandle_miss create recordOk s st hfind,
      lockedInsert_fresh_failure create recordOk s st hfind hfail]
  have hcomp : compilePipeline create recordOk s st
      = { st with createCalls := st.createCalls + 1 } := by
    unfold compilePipeline
    rw [hmiss]
  refine ⟨by rw [hmiss], by rw [hmiss], by rw [hmiss], by rw [hcomp], ?_⟩
  intro hc2
  have hfind2 : findInstance (compilePipeline create recordOk s st).pipelines s
      = none := by
    rw [hcomp]
    exact hfind
  rw [getPipelineHandle_miss create2 recordOk s _ hfind2,
    lockedInsert_fresh_success create2 recordOk s _ hdl hfind2 hc2]
  simp

theorem creation_failure_isolation_witness :
    ((getPipelineHandle (fun _ => none) true sampleState
        (⟨[], 0, []⟩ : PipelineObject DxvkGraphicsPipelineStateInfo)).1 = none)
    ∧ ((getPipelineHandle (fun _ => none) true sampleState
        (⟨[], 0, []⟩ : PipelineObject DxvkGraphicsPipelineStateInfo)).2.pipelines
      = [])
    ∧ ((compilePipeline (fun _ => none) true sampleState
        (⟨[], 0, []⟩ : PipelineObject DxvkGraphicsPipelineStateInfo)).pipelines
      = [])
    ∧ (getPipelineHandle (fun _ => some 6) true sampleState
        (compilePipeline (fun _ => none) true sampleState
          (⟨[], 0, []⟩ : PipelineObject DxvkGraphicsPipelineStateInfo))).1
      = some 6 := by
  have h := creation_failure_isolation (fun _ => none) (fun _ => some 6) true
    sampleState (⟨[], 0, []⟩ : PipelineObject DxvkGraphicsPipelineStateInfo) 6
    (by decide) rfl
  exact ⟨h.1, h.2.1, h.2.2.2.1, (h.2.2.2.2 rfl).1⟩

/-- Claim C2: instance matching uses structural equality of the stored
state vector (`isCompatible` holds iff the stored vector equals the
query), and sequential `getPipelineHandle` calls with field-wise equal
states return the same handle. -/
theorem structural_equality_determinism
    (inst : DxvkGraphicsPipelineInstance)
    (q : DxvkGraphicsPipelineStateInfo) :
    (inst.isCompatible q = true ↔ inst.m_stateVector = q)
    ∧ ∀ (create : DxvkGraphicsPipelineStateInfo → Option VkPipeline)
        (recordOk : Bool) (s1 s2 : DxvkGraphicsPipelineStateInfo)
        (st st' : PipelineObject DxvkGraphicsPipelineStateInfo)
        (hdl : VkPipeline),
        s1 = s2 →
        getPipelineHandle create recordOk s1 st = (some hdl, st') →
        (getPipelineHandle create recordOk s2 st').1 = some hdl := by
  constructor
  · simp [DxvkGraphicsPipelineInstance.isCompatible]
  · intro create recordOk s1 s2 st st' hdl heq hres
    subst heq
    obtain ⟨inst', hfind', hhdl⟩ :=
      getPipelineHandle_found create recordOk s1 st st' hdl hres
    rw [getPipelineHandle_hit create recordOk s1 st' inst' hfind', hhdl]

theorem structural_equality_determinism_witness :
    (DxvkGraphicsPipelineInstance.isCompatible ⟨sampleState, 9⟩ sampleState
      = true)
    ∧ getPipelineHandle (fun _ => some 9) true sampleState
        (⟨[], 0, []⟩ : PipelineObject DxvkGraphicsPipelineStateInfo)
      = (some 9, ⟨[⟨sampleState, 9⟩], 1, [sampleState]⟩)
    ∧ (getPipelineHandle (fun _ => some 9) true sampleState
        (⟨[⟨sampleState, 9⟩], 1, [sampleState]⟩ :
          PipelineObject DxvkGraphicsPipelineStateInfo)).1 = some 9 :=
  ⟨(structural_equality_determinism ⟨sampleState, 9⟩ sampleState).1.mpr rfl,
   by decide,
   (structural_equality_determinism ⟨sampleState, 9⟩ sampleState).2
     (fun _ => some 9) true sampleState sampleState ⟨[], 0, []⟩
     ⟨[⟨sampleState, 9⟩], 1, [sampleState]⟩ 9 rfl (by decide)⟩

theorem c1Invariant_step {n : Nat} (create : σ → Option VkPipeline)
    (recordOk : Bool) (state : σ) (st₀ : PipelineObject σ) (h₀ : VkPipeline)
    (hcreate : create state = some h₀)
    (hfresh : findInstance st₀.pipelines state = none)
    {c c' : Config σ n} (hstep : Step create recordOk state c c')
    (hinv : C1Invariant state st₀ h₀ c) : C1Invariant state st₀ h₀ c' := by
  cases hstep with
  | findHit i inst hpc hfind =>
      cases hinv with
      | inl h =>
          exfalso
          rw [h.1, hfresh] at hfind
          cases hfind
      | inr h =>
          obtain ⟨hp, hc, hcall⟩ := h
          have hfind' : findInstance c.shared.pipelines state
              = some ⟨state, h₀⟩ := by
            rw [hp]
            exact findInstance_append_fresh st₀.pipelines state h₀ hfresh
          rw [hfind'] at hfind
          injection hfind with hinst
          refine Or.inr ⟨hp, hc, fun j => ?_⟩
          by_cases hj : j = i
          · subst hj
            simp only [Function.update_same]
            exact Or.inr (Or.inr (by rw [← hinst]))
          · simp only [Function.update_noteq hj]
            exact hcall j
  | findMiss i hpc hfind =>
      cases hinv with
      | inl h =>
          refine Or.inl ⟨h.1, fun j => ?_⟩
          by_cases hj : j = i
          · subst hj
            simp only [Function.update_same]
            exact Or.inr trivial
          · simp only [Function.update_noteq hj]
            exact h.2 j
      | inr h =>
          exfalso
          rw [h.1] at hfind
          rw [findInstance_append_fresh st₀.pipelines state h₀ hfresh] at hfind
          cases hfind
  | enterLock i hpc =>
      cases hinv with
      | inl h =>
          have hli : lockedInsert create recordOk state c.shared
              = (some h₀, writePipelineStateToCache recordOk state
                  { c.shared with
                      pipelines := c.shared.pipelines ++ [⟨state, h₀⟩],
                      createCalls := c.shared.createCalls + 1 }) := by
            apply lockedInsert_fresh_success
            · rw [h.1]
              exact hfresh
            · exact hcreate
          refine Or.inr ⟨?_, ?_, fun j => ?_⟩
          · rw [hli]
            simp [h.1]
          · rw [hli]
            simp [h.1]
          · by_cases hj : j = i
            · subst hj
              simp only [Function.update_same]
              exact Or.inr (Or.inr (by rw [hli]))
            · simp only [Function.update_noteq hj]
              rcases h.2 j with h' | h'
              · exact Or.inl h'
              · exact Or.inr (Or.inl h')
      | inr h =>
          obtain ⟨hp, hc, hcall⟩ := h
          have hfind' : findInstance c.shared.pipelines state
              = some ⟨state, h₀⟩ := by
            rw [hp]
            exact findInstance_append_fresh st₀.pipelines state h₀ hfresh
          have hli := lockedInsert_hit create recordOk state c.shared
            ⟨state, h₀⟩ hfind'
          refine Or.inr ⟨?_, ?_, fun j => ?_⟩
          · rw [hli]
            exact hp
          · rw [hli]
            exact hc
          · by_cases hj : j = i
            · subst hj
              simp only [Function.update_same]
              exact Or.inr (Or.inr (by rw [hli]))
            · simp only [Function.update_noteq hj]
              exact hcall j

theorem c1Invariant_reach {n : Nat} (create : σ → Option VkPipeline)
    (recordOk : Bool) (state : σ) (st₀ : PipelineObject σ) (h₀ : VkPipeline)
    (hcreate : create state = some h₀)
    (hfresh : findInstance st₀.pipelines state = none)
    {c : Config σ n}
    (hreach : Relation.ReflTransGen (Step create recordOk state)
      (initConfig st₀ n) c) :
    C1Invariant state st₀ h₀ c := by
  induction hreach with
  | refl => exact Or.inl ⟨rfl, fun _ => Or.inl rfl⟩
  | tail _ hstep ih =>
      exact c1Invariant_step create recordOk state st₀ h₀ hcreate hfresh
        hstep ih

/-- Claim C1: for a fixed logical pipeline and a fixed state with no
existing instance, any interleaving of N concurrent `getPipelineHandle`
callers that all finish produces exactly one device `createPipeline`
call, appends exactly one instance, and every caller returns the one
published handle. -/
theorem concurrent_at_most_one_creation {n : Nat}
    (create : σ → Option VkPipeline) (recordOk : Bool) (state : σ)
    (st₀ : PipelineObject σ) (h₀ : VkPipeline) (c : Config σ n)
    (hn : 0 < n)
    (hcreate : create state = some h₀)
    (hfresh : findInstance st₀.pipelines state = none)
    (hreach : Relation.ReflTransGen (Step create recordOk state)
      (initConfig st₀ n) c)
    (hdone : ∀ i, ∃ r, c.callers i = CallerPC.done r) :
    c.shared.pipelines = st₀.pipelines ++ [⟨state, h₀⟩]
    ∧ c.shared.createCalls = st₀.createCalls + 1
    ∧ ∀ i, c.callers i = CallerPC.done (some h₀) := by
  have hinv := c1Invariant_reach create recordOk state st₀ h₀ hcreate
    hfresh hreach
  cases hinv with
  | inl h =>
      exfalso
      obtain ⟨r, hr⟩ := hdone ⟨0, hn⟩
      rcases h.2 ⟨0, hn⟩ with h' | h' <;> rw [hr] at h' <;> cases h'
  | inr h =>
      obtain ⟨hp, hc, hcall⟩ := h
      refine ⟨hp, hc, fun i => ?_⟩
      obtain ⟨r, hr⟩ := hdone i
      rcases hcall i with h' | h' | h'
      · rw [hr] at h'
        cases h'
      · rw [hr] at h'
        cases h'
      · exact h'

theorem concurrent_at_most_one_creation_witness :
    c1C3.shared.pipelines = [⟨sampleState, 7⟩]
    ∧ c1C3.shared.createCalls = 1
    ∧ c1C3.callers 0 = CallerPC.done (some 7)
    ∧ c1C3.callers 1 = CallerPC.done (some 7) := by
  have htrace : Relation.ReflTransGen (Step c1Create true sampleState)
      (initConfig ⟨[], 0, []⟩ 2) c1C3 :=
    Relation.ReflTransGen.head (Step.findMiss c1C0 0 rfl rfl)
      (Relation.ReflTransGen.head (Step.enterLock c1C1 0 rfl)
        (Relation.ReflTransGen.head
          (Step.findHit c1C2 1 ⟨sampleState, 7⟩ rfl (by decide))
          Relation.ReflTransGen.refl))
  have hdone : ∀ i, ∃ r, c1C3.callers i = CallerPC.done r := by
    intro i
    fin_cases i
    · exact ⟨some 7, rfl⟩
    · exact ⟨some 7, rfl⟩
  have h := concurrent_at_most_one_creation c1Create true sampleState
    ⟨[], 0, []⟩ 7 c1C3 (by decide) rfl rfl htrace hdone
  exact ⟨h.1, h.2.1, h.2.2 0, h.2.2 1⟩

end Dxvk
